import Mathlib

/-!
Verification of the request-resolution and redirect state machine of the
dotland `/x` module route, embedded from `src/routes/x/module.tsx`
(`handler.GET`, lines 56-156, and `handlerRaw`, lines 163-194).

The embedding is shallow: the mutable `URL` object becomes an explicit
`Url` record, the remote fetches become oracle inputs bundled in
`Upstream`, and the handler returns the response it would produce
together with the list of upstream calls it performed (for the
frame-effect properties).  Helper functions imported from
`util/registry_utils.ts` (not part of the sources under verification)
are modelled from the specification and documented as such.
-/

/-- The three page views, `type Views = "doc" | "source" | "info"` (module.tsx line 41). -/
inductive Views where
  | doc
  | source
  | info
deriving DecidableEq, Repr

/-- Route parameters from `routeOverride: "/x/:name{@:version}?/:path*"` (line 42-46, 655).
An unmatched optional segment is the empty string. -/
structure Params where
  name : String
  version : String
  path : String
deriving DecidableEq, Repr

/-- Page kinds of the tagged `DocPage`/`SourcePage`/`InfoPage` union; the handler branches
on `kind` being `"no-versions"`, `"file"` or `"modinfo"` and passes the rest through. -/
inductive PageKind where
  | noVersions
  | invalidVersion
  | notfound
  | index
  | dir
  | file
  | modinfo
  | symbolPage
  | modulePage
deriving DecidableEq, Repr

/-- The page payload as far as the handler inspects or mutates it: its `kind`, the
`readme` reference of a `modinfo` page, and the `readmeFile` / `file` slots filled in
by the enrichment step (lines 148-152). -/
structure PageData where
  kind : PageKind
  readme : Option String := none
  readmeFile : Option String := none
  file : Option String := none
deriving DecidableEq, Repr

/-- Outcome of the `fetch(resURL)` page-metadata call (lines 93-129): a 404, a 302
carrying the optional `X-Deno-Latest-Version` header, a 301 carrying the optional
`X-Deno-Module-Path` header, or a 200 with a page payload. -/
inductive PageFetchResult where
  | notFound404
  | implicitLatest (latestHeader : Option String)
  | canonicalDir (pathHeader : Option String)
  | success (page : PageData)
deriving DecidableEq, Repr

/-- Version list returned by `getVersionList` (line 168): the latest version may be null. -/
structure VersionList where
  latest : Option String
  all : List String := []
deriving DecidableEq, Repr

/-- Oracle inputs standing for the remote services the handler consults. -/
structure Upstream where
  page : PageFetchResult
  versions : Option VersionList
  readmeFile : Option String := none
  rawFile : Option String := none
deriving DecidableEq, Repr

/-- Query parameters of the request URL, in order, as (key, value) pairs. -/
def SearchParams : Type := List (String × String)

instance : DecidableEq SearchParams := by
  unfold SearchParams
  infer_instance

/-- The request URL as the handler reads and mutates it: host, pathname,
query parameters and fragment (fragment stored without its `#`). -/
structure Url where
  host : String
  pathname : String
  searchParams : List (String × String)
  hash : String
deriving DecidableEq, Repr

/-- `url.searchParams.has(k)` of the web URL API. -/
def paramsHas (ps : List (String × String)) (k : String) : Bool :=
  ps.any (fun p => p.1 == k)

/-- `url.searchParams.get(k)` of the web URL API: null when absent. -/
def paramsGet (ps : List (String × String)) (k : String) : Option String :=
  (ps.find? (fun p => p.1 == k)).map (fun p => p.2)

/-- `url.searchParams.set(k, v)` of the web URL API: replace the value when the key is
present, append otherwise. -/
def paramsSet (ps : List (String × String)) (k v : String) : List (String × String) :=
  if paramsHas ps k then ps.map (fun p => if p.1 == k then (k, v) else p)
  else ps ++ [(k, v)]

/-- Serialization of the query parameters, used only to render `req.url` in the raw
warning header. -/
def renderParams (ps : List (String × String)) : String :=
  match ps with
  | [] => ""
  | _ => "?" ++ String.intercalate "&"
      (ps.map (fun p => if p.2 = "" then p.1 else p.1 ++ "=" ++ p.2))

/-- The full request URL string (`req.url`). -/
def Url.render (u : Url) : String :=
  "https://" ++ u.host ++ u.pathname ++ renderParams u.searchParams ++
    (if u.hash = "" then "" else "#" ++ u.hash)

/-- Result of `new URL(path, base)` for a path-absolute reference string: the base
contributes scheme and host only; query and fragment of the base are dropped. -/
def urlFromPath (base : Url) (path : String) : Url :=
  { host := base.host, pathname := path, searchParams := [], hash := "" }

/-- Modelled from the spec: `getModulePath` lives in `util/registry_utils.ts`, which is
not among the sources under verification.  Spec section 6 gives the inbound route
pattern `/x/<name>[@<version>]/<path...>`, with the std module served without
the `/x` segment; an empty (JS-falsy) version contributes no `@<version>` qualifier. -/
def getModulePath (name version path : String) : String :=
  (if name = "std" then "" else "/x") ++ "/" ++ name ++
    (if version = "" then "" else "@" ++ version) ++ path

/-- A parsed legacy line-number reference: the remaining path and the line. -/
structure AltLineRef where
  rest : String
  line : Nat
deriving DecidableEq, Repr

/-- Decimal value of a list of digit characters. -/
def digitsToNat (l : List Char) : Nat :=
  l.foldl (fun acc c => acc * 10 + (c.toNat - 48)) 0

/-- Modelled from the spec: `extractAltLineNumberReference` lives in
`util/registry_utils.ts`, which is not among the sources under verification.  Spec
section 4.5 (AnchorCanonicalization) describes the token as an embedded `:123`-style
line-reference suffix on the path: when the pathname ends in a colon followed by one
or more digits, those digits are the line number and the part before the colon is the
remaining path; anything else is unparseable and treated as absent (spec section 7 (e)). -/
def extractAltLineNumberReference (pathname : String) : Option AltLineRef :=
  let revc := pathname.data.reverse
  let digits := (revc.takeWhile Char.isDigit).reverse
  match revc.drop digits.length with
  | c :: before =>
    if digits ≠ [] ∧ c = ':' then
      some ⟨String.mk before.reverse, digitsToNat digits⟩
    else none
  | [] => none

/-- The reason tag identifying which handler branch produced a `Response.redirect`. -/
inductive RedirectReason where
  | stdLegacy
  | implicitLatest
  | docToSource
  | lineAnchor
deriving DecidableEq, Repr

/-- The upstream calls the handler can perform, recorded for the frame-effect
properties: the page-metadata fetch (lines 93-95), `getVersionList` (line 168),
`fetchSource` (line 193), `getReadme` (line 149) and `getRawFile` (line 151). -/
inductive UpstreamCall where
  | pageMetadata (view : Views) (name version path : String) (symbol : Option String)
  | versionList (name : String)
  | contentFetch (name version path : String)
  | readmeFetch (name version readme : String)
  | rawFileFetch (name version path : String)
deriving DecidableEq, Repr

/-- The response shapes the handler produces.  `redirect` stands for
`Response.redirect(url, status)` (status defaults to 302 when the code passes none);
`locationRedirect` for a hand-built `Response` with a `Location` header;
`headerAssertionFailure` for the runtime dereference of an absent response header
behind a TypeScript non-null assertion. -/
inductive HResponse where
  | renderNull
  | redirect (reason : RedirectReason) (url : Url) (status : Nat)
  | locationRedirect (location : String) (status : Nat)
  | render (view : Views) (page : PageData)
  | rawError (status : Nat) (body : String)
  | rawRedirect (status : Nat) (location : String) (warning : String)
  | rawContent (name version path : String)
  | headerAssertionFailure
deriving DecidableEq, Repr

/-- An ASCII single-quote character, used in the raw 404 bodies. -/
def squote : String := String.mk [Char.ofNat 39]

/-- Body of the 404 returned when `getVersionList` finds no module (lines 170-173). -/
def rawModuleMissingBody (name : String) : String :=
  "The module " ++ squote ++ name ++ squote ++ " does not exist"

/-- Body of the 404 returned when the version list has no latest version (lines 176-179). -/
def rawNoLatestBody (name : String) : String :=
  "The module " ++ squote ++ name ++ squote ++ " has no latest version."

/-- The `x-deno-warning` header value of the implicit-latest raw redirect (lines 187-188). -/
def rawWarning (latest reqUrl : String) : String :=
  "Implicitly using latest version (" ++ latest ++ ") for " ++ reqUrl

/-- The sentinel version sent upstream when the caller omitted one (line 82). -/
def latestSentinel : String := "__latest__"

/-- JS `String.prototype.startsWith` (line 61), in executable character-level form:
the candidate is a character-list prefix of the string. -/
def strStartsWith (s pre : String) : Bool := pre.data.isPrefixOf s.data

/-- View classification of lines 69-78: `source` flag, then `doc` flag, then empty
sub-path means info, otherwise doc. -/
def resolveView (url : Url) (path : String) : Views :=
  if paramsHas url.searchParams "source" then .source
  else if paramsHas url.searchParams "doc" then .doc
  else if path = "" then .info
  else .doc

/-- The `s` query parameter is forwarded as a symbol filter only when truthy and the
view is doc (lines 86-89). -/
def symbolParam (url : Url) (view : Views) : Option String :=
  match paramsGet url.searchParams "s" with
  | some s => if s ≠ "" ∧ view = .doc then some s else none
  | none => none

/-- The page-metadata call of lines 80-95: view, name, version-or-sentinel, path and
optional symbol filter. -/
def pageFetchCall (url : Url) (p : Params) (view : Views) : UpstreamCall :=
  .pageMetadata view p.name (if p.version = "" then latestSentinel else p.version) p.path
    (symbolParam url view)

/-- The enrichment step of lines 148-152: attach the readme for a `modinfo` page with a
readme reference, or the raw file content for a source-view `file` page. -/
def enrich (p : Params) (view : Views) (page : PageData) (up : Upstream) :
    PageData × List UpstreamCall :=
  if page.kind = .modinfo ∧ page.readme.isSome then
    ({ page with readmeFile := up.readmeFile },
      [.readmeFetch p.name p.version (page.readme.getD "")])
  else if view = .source ∧ page.kind = .file then
    ({ page with file := up.rawFile },
      [.rawFileFetch p.name p.version (if p.path = "" then "" else "/" ++ p.path)])
  else (page, [])

/-- The raw fast path `handlerRaw` of lines 163-194: with an empty version, one
`getVersionList` call resolving to a 404 or a 302 with the warning header; otherwise
one `fetchSource` content call. -/
def handlerRaw (reqUrl : Url) (p : Params) (up : Upstream) :
    HResponse × List UpstreamCall :=
  if p.version = "" then
    match up.versions with
    | none => (.rawError 404 (rawModuleMissingBody p.name), [.versionList p.name])
    | some vl =>
      match vl.latest with
      | none => (.rawError 404 (rawNoLatestBody p.name), [.versionList p.name])
      | some latest =>
        (.rawRedirect 302
          (getModulePath p.name latest (if p.path = "" then "" else "/" ++ p.path))
          (rawWarning latest reqUrl.render), [.versionList p.name])
  else (.rawContent p.name p.version p.path, [.contentFetch p.name p.version p.path])

/-- The URL produced by the doc-to-source view canonicalization redirect (lines 136-137):
the request URL with the `source` query flag set. -/
def docToSourceTarget (url : Url) : Url :=
  { url with searchParams := paramsSet url.searchParams "source" "" }

/-- The GET handler of lines 57-155, returning the response and the list of upstream
calls performed.  The branch order mirrors the source: std legacy-prefix rewrite,
content negotiation handing off to `handlerRaw`, view classification, the
page-metadata fetch with its four outcomes, the `no-versions` early render, the
doc-to-source redirect, the legacy line-number redirect, then enrichment and render. -/
def handlerGET (isHTML : Bool) (url : Url) (p : Params) (up : Upstream) :
    HResponse × List UpstreamCall :=
  if p.name = "std" ∧ strStartsWith url.pathname "/x" = true then
    (.redirect .stdLegacy { url with pathname := url.pathname.drop 2 } 301, [])
  else if !isHTML then
    handlerRaw url p up
  else
    let view := resolveView url p.path
    let call := pageFetchCall url p view
    match up.page with
    | .notFound404 => (.renderNull, [call])
    | .implicitLatest none => (.headerAssertionFailure, [call])
    | .implicitLatest (some latest) =>
      (.redirect .implicitLatest
        (urlFromPath url
          (getModulePath p.name latest (if p.path = "" then "" else "/" ++ p.path)))
        302, [call])
    | .canonicalDir none => (.headerAssertionFailure, [call])
    | .canonicalDir (some newPath) =>
      (.locationRedirect (getModulePath p.name p.version newPath) 301, [call])
    | .success page =>
      if page.kind = .noVersions then (.render view page, [call])
      else if view = .doc ∧ page.kind = .file then
        (.redirect .docToSource (docToSourceTarget url) 301, [call])
      else
        match extractAltLineNumberReference url.pathname with
        | some ln =>
          (.redirect .lineAnchor
            { url with pathname := ln.rest,
                       searchParams := paramsSet url.searchParams "source" "",
                       hash := "L" ++ toString ln.line } 302, [call])
        | none =>
          let enriched := enrich p view page up
          (.render view enriched.1, call :: enriched.2)

/-- Dropping two characters from a string that decomposes as "/x" ++ rest yields rest. -/
theorem drop_two_of_x_decomp (s rest : String) (h : s = "/x" ++ rest) :
    s.drop 2 = rest := by
  subst h
  apply String.ext
  rw [String.data_drop, String.data_append]
  simp

/-- Setting a query key makes it present. -/
theorem paramsHas_paramsSet (ps : List (String × String)) (k v : String) :
    paramsHas (paramsSet ps k v) k = true := by
  unfold paramsSet
  split
  · next h =>
    unfold paramsHas at h ⊢
    simp only [List.any_eq_true] at h ⊢
    obtain ⟨p, hp, hpk⟩ := h
    refine ⟨(k, v), List.mem_map.mpr ⟨p, hp, ?_⟩, by simp⟩
    simp [hpk]
  · unfold paramsHas
    simp

/-- The view resolved for a URL carrying the `source` flag is always Source. -/
theorem resolveView_docToSourceTarget (url : Url) (path : String) :
    resolveView (docToSourceTarget url) path = .source := by
  unfold resolveView docToSourceTarget
  simp [paramsHas_paramsSet]

/-- C5: for every request whose module name is "std" and whose URL path still begins
with the legacy /x segment, the handler emits a 301 redirect that strips the /x segment
and preserves the rest of the path, performing no upstream call and deciding before
content negotiation (any `isHTML`), view classification (any query) and any upstream
interaction (any oracle). -/
theorem c5_std_legacy_redirect (isHTML : Bool) (url : Url) (p : Params) (up : Upstream)
    (hname : p.name = "std") (hx : strStartsWith url.pathname "/x" = true) :
    handlerGET isHTML url p up =
      (.redirect .stdLegacy { url with pathname := url.pathname.drop 2 } 301, []) ∧
    (∀ rest, url.pathname = "/x" ++ rest →
      ({ url with pathname := url.pathname.drop 2 } : Url).pathname = rest) := by
  constructor
  · unfold handlerGET
    rw [if_pos ⟨hname, hx⟩]
  · intro rest hrest
    exact drop_two_of_x_decomp url.pathname rest hrest

def c5Url : Url :=
  { host := "deno.land", pathname := "/x/std/fmt/testing.ts", searchParams := [], hash := "" }

def c5Params : Params := { name := "std", version := "", path := "fmt/testing.ts" }

def c5Up : Upstream := { page := .notFound404, versions := none }

/-- C5 witness: the concrete legacy request /x/std/fmt/testing.ts is 301-redirected to
/std/fmt/testing.ts with no upstream call. -/
theorem c5_std_legacy_redirect_witness :
    handlerGET true c5Url c5Params c5Up =
      (.redirect .stdLegacy
        { host := "deno.land", pathname := "/std/fmt/testing.ts", searchParams := [],
          hash := "" } 301, []) :=
  (c5_std_legacy_redirect true c5Url c5Params c5Up (by decide) (by decide)).1

/-- C6: the view is resolved by the fixed precedence of lines 69-78: a `source` query
flag yields Source; otherwise a `doc` flag yields Doc; otherwise an empty sub-path
yields Info; otherwise the default is Doc. -/
theorem c6_view_precedence (url : Url) (path : String) :
    (paramsHas url.searchParams "source" = true → resolveView url path = .source) ∧
    (paramsHas url.searchParams "source" = false →
      paramsHas url.searchParams "doc" = true → resolveView url path = .doc) ∧
    (paramsHas url.searchParams "source" = false →
      paramsHas url.searchParams "doc" = false → path = "" → resolveView url path = .info) ∧
    (paramsHas url.searchParams "source" = false →
      paramsHas url.searchParams "doc" = false → path ≠ "" → resolveView url path = .doc) := by
  refine ⟨fun h => ?_, fun h1 h2 => ?_, fun h1 h2 h3 => ?_, fun h1 h2 h3 => ?_⟩ <;>
    simp [resolveView, *]

def c6Url : Url :=
  { host := "deno.land", pathname := "/x/oak/mod.ts", searchParams := [], hash := "" }

/-- C6 witness: a request with no query flags and a non-empty sub-path resolves to Doc. -/
theorem c6_view_precedence_witness : resolveView c6Url "mod.ts" = .doc :=
  (c6_view_precedence c6Url "mod.ts").2.2.2 (by decide) (by decide) (by decide)

/-- C7: when the upstream page fetch signals a canonical-path redirect (HTTP 301 with
the X-Deno-Module-Path header), the handler answers a 301 whose Location is the module
path for the same name and version with the canonical sub-path substituted. -/
theorem c7_canonical_path_redirect (url : Url) (p : Params) (up : Upstream)
    (newPath : String)
    (hstd : ¬(p.name = "std" ∧ strStartsWith url.pathname "/x" = true))
    (hpage : up.page = .canonicalDir (some newPath)) :
    (handlerGET true url p up).1 =
      .locationRedirect (getModulePath p.name p.version newPath) 301 := by
  unfold handlerGET
  rw [if_neg hstd, hpage]
  rfl

def c7Url : Url :=
  { host := "deno.land", pathname := "/x/oak@10.0.0/middleware", searchParams := [],
    hash := "" }

def c7Params : Params := { name := "oak", version := "10.0.0", path := "middleware" }

def c7Up : Upstream := { page := .canonicalDir (some "/middleware/mod.ts"), versions := none }

/-- C7 witness: a canonical-path signal for /x/oak@10.0.0/middleware yields a 301 to
/x/oak@10.0.0/middleware/mod.ts. -/
theorem c7_canonical_path_redirect_witness :
    (handlerGET true c7Url c7Params c7Up).1 =
      .locationRedirect "/x/oak@10.0.0/middleware/mod.ts" 301 :=
  c7_canonical_path_redirect c7Url c7Params c7Up "/middleware/mod.ts" (by decide) (by decide)

def c1Url : Url :=
  { host := "deno.land", pathname := "/x/oak/mod.ts", searchParams := [("foo", "bar")],
    hash := "" }

def c1Params : Params := { name := "oak", version := "", path := "mod.ts" }

def c1Up : Upstream := { page := .implicitLatest (some "10.0.0"), versions := none }

def c1Target : Url :=
  { host := "deno.land", pathname := "/x/oak@10.0.0/mod.ts", searchParams := [], hash := "" }

/-- C1 counterexample: for the version-less HTML request /x/oak/mod.ts?foo=bar with the
upstream resolving latest 10.0.0, the handler produces a redirect of status 302 (the
`Response.redirect(url)` default of line 105, not the permanent 301 the claim states)
whose target URL carries an empty query: the original query string foo=bar is dropped
by `new URL(path, url)`, not preserved. -/
theorem c1_implicit_latest_counterexample :
    (handlerGET true c1Url c1Params c1Up).1 = .redirect .implicitLatest c1Target 302 ∧
    c1Target.searchParams = [] ∧ c1Url.searchParams = [("foo", "bar")] := by
  decide

/-- C1 (amended): when upstream signals implicit latest with the version header
present, the handler responds with a 302 redirect (not 301) to the version-qualified
module URL built from the original sub-path; the target inherits the request host but
drops the original query string and fragment. -/
theorem c1_implicit_latest_amended (url : Url) (p : Params) (up : Upstream) (v : String)
    (hstd : ¬(p.name = "std" ∧ strStartsWith url.pathname "/x" = true))
    (hpage : up.page = .implicitLatest (some v)) :
    (handlerGET true url p up).1 =
      .redirect .implicitLatest
        (urlFromPath url (getModulePath p.name v (if p.path = "" then "" else "/" ++ p.path)))
        302 ∧
    (urlFromPath url (getModulePath p.name v (if p.path = "" then "" else "/" ++ p.path))).searchParams = [] ∧
    (urlFromPath url (getModulePath p.name v (if p.path = "" then "" else "/" ++ p.path))).hash = "" ∧
    (urlFromPath url (getModulePath p.name v (if p.path = "" then "" else "/" ++ p.path))).host = url.host := by
  refine ⟨?_, rfl, rfl, rfl⟩
  unfold handlerGET
  rw [if_neg hstd, hpage]
  rfl

/-- C1 (amended) witness: the concrete request of the counterexample input satisfies
the amended statement with latest version 10.0.0. -/
theorem c1_implicit_latest_amended_witness :
    (handlerGET true c1Url c1Params c1Up).1 = .redirect .implicitLatest c1Target 302 :=
  (c1_implicit_latest_amended c1Url c1Params c1Up "10.0.0" (by decide) (by decide)).1

/-- C2: a rendered request classified as Doc view whose fetched page kind is `file`
(and hence not `no-versions`) is answered by exactly one 301 redirect to the original
URL with the `source` query flag added; pathname and fragment are unchanged and the
flag is present on the target. -/
theorem c2_doc_file_redirects_to_source (url : Url) (p : Params) (up : Upstream)
    (page : PageData)
    (hstd : ¬(p.name = "std" ∧ strStartsWith url.pathname "/x" = true))
    (hpage : up.page = .success page)
    (hview : resolveView url p.path = .doc)
    (hkind : page.kind = .file) :
    (handlerGET true url p up).1 = .redirect .docToSource (docToSourceTarget url) 301 ∧
    (docToSourceTarget url).pathname = url.pathname ∧
    (docToSourceTarget url).hash = url.hash ∧
    paramsHas (docToSourceTarget url).searchParams "source" = true := by
  refine ⟨?_, rfl, rfl, paramsHas_paramsSet _ _ _⟩
  unfold handlerGET
  rw [if_neg hstd]
  simp [hpage, hview, hkind]

def c2Url : Url :=
  { host := "deno.land", pathname := "/x/oak@10.0.0/mod.ts", searchParams := [], hash := "" }

def c2Params : Params := { name := "oak", version := "10.0.0", path := "mod.ts" }

def c2Up : Upstream := { page := .success { kind := .file }, versions := none }

def c2Target : Url :=
  { host := "deno.land", pathname := "/x/oak@10.0.0/mod.ts",
    searchParams := [("source", "")], hash := "" }

/-- C2 witness: the doc-view file request /x/oak@10.0.0/mod.ts is 301-redirected to the
same URL with the `source` flag. -/
theorem c2_doc_file_redirects_to_source_witness :
    (handlerGET true c2Url c2Params c2Up).1 = .redirect .docToSource c2Target 301 :=
  (c2_doc_file_redirects_to_source c2Url c2Params c2Up { kind := .file }
    (by decide) (by decide) (by decide) (by decide)).1

def c10Url : Url :=
  { host := "deno.land", pathname := "/x/oak", searchParams := [], hash := "" }

def c10Params : Params := { name := "oak", version := "", path := "" }

def c10UpGood : Upstream := { page := .implicitLatest (some "10.0.0"), versions := none }

/-- C10: the implicit-latest branch dereferences the X-Deno-Latest-Version response
header behind a non-null assertion with no guarding branch: when the upstream 302
lacks the header the handler reaches the header-assertion failure state, and under the
precondition that every upstream 302 carries the header that state is unreachable and
the version-defaulting redirect is well defined. -/
theorem c10_latest_header_assertion (url : Url) (p : Params) (up : Upstream)
    (hstd : ¬(p.name = "std" ∧ strStartsWith url.pathname "/x" = true)) :
    (up.page = .implicitLatest none →
      (handlerGET true url p up).1 = .headerAssertionFailure) ∧
    (∀ v, up.page = .implicitLatest (some v) →
      (handlerGET true url p up).1 =
        .redirect .implicitLatest
          (urlFromPath url (getModulePath p.name v (if p.path = "" then "" else "/" ++ p.path)))
          302 ∧
      (handlerGET true url p up).1 ≠ .headerAssertionFailure) := by
  constructor
  · intro h
    unfold handlerGET
    rw [if_neg hstd, h]
    rfl
  · intro v h
    have hred : (handlerGET true url p up).1 =
        .redirect .implicitLatest
          (urlFromPath url (getModulePath p.name v (if p.path = "" then "" else "/" ++ p.path)))
          302 := by
      unfold handlerGET
      rw [if_neg hstd, h]
      rfl
    refine ⟨hred, ?_⟩
    rw [hred]
    intro hbad
    cases hbad

/-- C10 witness: with the header present and carrying 10.0.0, the request /x/oak is
answered by the well-defined 302 redirect to /x/oak@10.0.0. -/
theorem c10_latest_header_assertion_witness :
    (handlerGET true c10Url c10Params c10UpGood).1 =
      .redirect .implicitLatest
        { host := "deno.land", pathname := "/x/oak@10.0.0", searchParams := [], hash := "" }
        302 :=
  ((c10_latest_header_assertion c10Url c10Params c10UpGood (by decide)).2
    "10.0.0" (by decide)).1

/-- C4: the raw fast path with an empty version resolves via one version-list lookup:
no version list means a 404 whose body names the module; a list without a latest
version means a 404 with a diagnostic body; otherwise a 302 to the version-qualified
raw URL whose non-standard x-deno-warning header names the implicitly chosen latest
version. -/
theorem c4_raw_empty_version (url : Url) (p : Params) (up : Upstream)
    (hv : p.version = "") :
    (up.versions = none →
      handlerRaw url p up =
        (.rawError 404 (rawModuleMissingBody p.name), [.versionList p.name])) ∧
    (∀ vl, up.versions = some vl → vl.latest = none →
      handlerRaw url p up =
        (.rawError 404 (rawNoLatestBody p.name), [.versionList p.name])) ∧
    (∀ vl latest, up.versions = some vl → vl.latest = some latest →
      handlerRaw url p up =
        (.rawRedirect 302
          (getModulePath p.name latest (if p.path = "" then "" else "/" ++ p.path))
          (rawWarning latest url.render), [.versionList p.name])) := by
  refine ⟨fun h => ?_, fun vl h hl => ?_, fun vl latest h hl => ?_⟩
  · unfold handlerRaw
    rw [if_pos hv, h]
  · unfold handlerRaw
    rw [if_pos hv, h]
    simp only [hl]
  · unfold handlerRaw
    rw [if_pos hv, h]
    simp only [hl]

def c4Url : Url :=
  { host := "deno.land", pathname := "/x/oak/mod.ts", searchParams := [], hash := "" }

def c4Params : Params := { name := "oak", version := "", path := "mod.ts" }

def c4Up : Upstream :=
  { page := .notFound404, versions := some { latest := some "1.0.0", all := ["1.0.0"] } }

/-- C4 witness: the version-less raw request for /x/oak/mod.ts is answered by a 302 to
/x/oak@1.0.0/mod.ts whose warning header names version 1.0.0 and the request URL. -/
theorem c4_raw_empty_version_witness :
    handlerRaw c4Url c4Params c4Up =
      (.rawRedirect 302 "/x/oak@1.0.0/mod.ts"
        "Implicitly using latest version (1.0.0) for https://deno.land/x/oak/mod.ts",
        [.versionList "oak"]) :=
  ((c4_raw_empty_version c4Url c4Params c4Up (by decide)).2.2
    { latest := some "1.0.0", all := ["1.0.0"] } "1.0.0" (by decide) (by decide))

/-- C8: on the rendered path, once no earlier redirect applies, a parseable legacy
line-number token in the pathname produces a 302 that strips the token from the path,
sets the `source` query flag and sets the fragment to the normalized anchor L(line);
an unparseable token is treated as absent and the request falls through to rendering
the enriched page, with no redirect and no error. -/
theorem c8_line_anchor_redirect (url : Url) (p : Params) (up : Upstream)
    (page : PageData)
    (hstd : ¬(p.name = "std" ∧ strStartsWith url.pathname "/x" = true))
    (hpage : up.page = .success page)
    (hnv : page.kind ≠ .noVersions)
    (hnd : ¬(resolveView url p.path = .doc ∧ page.kind = .file)) :
    (∀ ln, extractAltLineNumberReference url.pathname = some ln →
      (handlerGET true url p up).1 =
        .redirect .lineAnchor
          { host := url.host, pathname := ln.rest,
            searchParams := paramsSet url.searchParams "source" "",
            hash := "L" ++ toString ln.line } 302) ∧
    (extractAltLineNumberReference url.pathname = none →
      (handlerGET true url p up).1 =
        .render (resolveView url p.path) (enrich p (resolveView url p.path) page up).1) := by
  constructor
  · intro ln hln
    unfold handlerGET
    rw [if_neg hstd]
    simp [hpage, hnv, hnd, hln]
  · intro hln
    unfold handlerGET
    rw [if_neg hstd]
    simp [hpage, hnv, hnd, hln]

def c8Url : Url :=
  { host := "deno.land", pathname := "/x/oak@10.0.0/mod.ts:15",
    searchParams := [("source", "")], hash := "" }

def c8Params : Params := { name := "oak", version := "10.0.0", path := "mod.ts:15" }

def c8Page : PageData := { kind := .file }

def c8Up : Upstream := { page := .success c8Page, versions := none }

def c8Target : Url :=
  { host := "deno.land", pathname := "/x/oak@10.0.0/mod.ts",
    searchParams := [("source", "")], hash := "L15" }

/-- C8 witness: the source-view request whose path carries the legacy token :15 is
302-redirected to the stripped path with the source flag and the fragment L15. -/
theorem c8_line_anchor_redirect_witness :
    (handlerGET true c8Url c8Params c8Up).1 = .redirect .lineAnchor c8Target 302 :=
  (c8_line_anchor_redirect c8Url c8Params c8Up c8Page (by decide) (by decide) (by decide)
    (by decide)).1 ⟨"/x/oak@10.0.0/mod.ts", 15⟩ (by decide)

/-- Recognizer for the doc-to-source view-canonicalization redirect. -/
def isDocToSourceRedirect : HResponse → Bool
  | .redirect .docToSource _ _ => true
  | _ => false

/-- The raw fast path never produces the doc-to-source redirect. -/
theorem handlerRaw_not_docToSource (url : Url) (p : Params) (up : Upstream) :
    isDocToSourceRedirect (handlerRaw url p up).1 = false := by
  unfold handlerRaw
  split
  · split
    · rfl
    · split
      · rfl
      · rfl
  · rfl

/-- C9: the doc-to-source view canonicalization cannot loop: its target carries the
`source` query flag, hence classifies as Source view on re-resolution, and resolving
the target again never produces the doc-to-source redirect, for any negotiation
result, route parameters and upstream data. -/
theorem c9_doc_to_source_no_loop (isHTML : Bool) (url : Url) (p : Params)
    (up : Upstream) :
    resolveView (docToSourceTarget url) p.path = .source ∧
    isDocToSourceRedirect (handlerGET isHTML (docToSourceTarget url) p up).1 = false := by
  have hsv := resolveView_docToSourceTarget url p.path
  refine ⟨hsv, ?_⟩
  unfold handlerGET
  split
  · rfl
  · split
    · exact handlerRaw_not_docToSource _ _ _
    · obtain ⟨pg, vs, rm, rf⟩ := up
      cases pg with
      | notFound404 => rfl
      | implicitLatest h => cases h <;> rfl
      | canonicalDir h => cases h <;> rfl
      | success page =>
        by_cases h1 : page.kind = PageKind.noVersions
        · simp [h1, isDocToSourceRedirect]
        · have h2 : ¬(resolveView (docToSourceTarget url) p.path = Views.doc ∧
              page.kind = PageKind.file) := by
            rw [hsv]
            rintro ⟨hcontr, -⟩
            cases hcontr
          simp only [if_neg h1, if_neg h2]
          cases extractAltLineNumberReference (docToSourceTarget url).pathname with
          | some ln => rfl
          | none => rfl

/-- The raw fast path performs exactly the version-list lookup when the version is
empty, and exactly the content fetch otherwise. -/
theorem handlerRaw_calls (url : Url) (p : Params) (up : Upstream) :
    (handlerRaw url p up).2 =
      if p.version = "" then [UpstreamCall.versionList p.name]
      else [UpstreamCall.contentFetch p.name p.version p.path] := by
  unfold handlerRaw
  split
  · split
    · rfl
    · split
      · rfl
      · rfl
  · rfl

/-- C3 (amended): every request whose content negotiation does not select text/html
and which is not captured by the std legacy-prefix rewrite is answered entirely by the
raw fast path, which performs exactly one upstream call (the version-list lookup when
the version is empty, the content fetch otherwise) and never a page-metadata lookup. -/
theorem c3_raw_fast_path_amended (url : Url) (p : Params) (up : Upstream)
    (hstd : ¬(p.name = "std" ∧ strStartsWith url.pathname "/x" = true)) :
    handlerGET false url p up = handlerRaw url p up ∧
    (handlerRaw url p up).2.length = 1 ∧
    (∀ v n ver pa s, UpstreamCall.pageMetadata v n ver pa s ∉ (handlerRaw url p up).2) ∧
    (p.version = "" → (handlerRaw url p up).2 = [.versionList p.name]) ∧
    (p.version ≠ "" → (handlerRaw url p up).2 = [.contentFetch p.name p.version p.path]) := by
  have hc := handlerRaw_calls url p up
  refine ⟨?_, ?_, ?_, fun h => ?_, fun h => ?_⟩
  · unfold handlerGET
    rw [if_neg hstd]
    rfl
  · rw [hc]
    split <;> rfl
  · intro v n ver pa s
    rw [hc]
    split <;> simp
  · rw [hc, if_pos h]
  · rw [hc, if_neg h]

def c3HtmlUrl : Url :=
  { host := "deno.land", pathname := "/x/oak@10.0.0/mod.ts", searchParams := [], hash := "" }

def c3HtmlParams : Params := { name := "oak", version := "10.0.0", path := "mod.ts" }

def c3HtmlUp : Upstream := { page := .notFound404, versions := none }

/-- C3 (amended) witness: a non-HTML request for /x/oak@10.0.0/mod.ts is served by the
raw fast path with exactly the one content-fetch call. -/
theorem c3_raw_fast_path_amended_witness :
    handlerGET false c3HtmlUrl c3HtmlParams c3HtmlUp = handlerRaw c3HtmlUrl c3HtmlParams c3HtmlUp ∧
    (handlerRaw c3HtmlUrl c3HtmlParams c3HtmlUp).2 = [.contentFetch "oak" "10.0.0" "mod.ts"] :=
  ⟨(c3_raw_fast_path_amended c3HtmlUrl c3HtmlParams c3HtmlUp (by decide)).1,
    (c3_raw_fast_path_amended c3HtmlUrl c3HtmlParams c3HtmlUp (by decide)).2.2.2.2 (by decide)⟩

def c3Url : Url :=
  { host := "deno.land", pathname := "/x/std/version.ts", searchParams := [], hash := "" }

def c3Params : Params := { name := "std", version := "0.100.0", path := "version.ts" }

def c3Up : Upstream := { page := .notFound404, versions := none }

/-- C3 counterexample: the non-HTML request /x/std/version.ts is captured by the std
legacy-prefix rewrite, which runs before content negotiation: the handler answers the
301 prefix-stripping redirect with zero upstream calls, not the raw fast path's output
(which would be the content passthrough with its one content-fetch call). -/
theorem c3_raw_fast_path_counterexample :
    handlerGET false c3Url c3Params c3Up =
      (.redirect .stdLegacy
        { host := "deno.land", pathname := "/std/version.ts", searchParams := [], hash := "" }
        301, []) ∧
    handlerRaw c3Url c3Params c3Up =
      (.rawContent "std" "0.100.0" "version.ts",
        [.contentFetch "std" "0.100.0" "version.ts"]) := by
  decide
